import Mathlib

/-!
# Safe-Link Sandbox — verification of the risk-scoring and verdict-fusion engine

Shallow embedding of the analyzer core of the Safe-Link Sandbox repository
(`src/unnamed/part_000` — the analyzer module, `src/ai-analyzer.js`,
`src/server.js`).  JavaScript strings are modelled as Lean `String`
(regexes over them as decidable predicates on `List Char`), machine
numbers as `Nat`/`Int`/`Rat` (the scores involved are small integers, far
below any floating-point precision boundary, and the weighted average
`h*0.4 + ai*0.6` always sits at least `0.1` away from a rounding midpoint,
so exact rational arithmetic is faithful to the double-precision source),
a parsed `new URL(...)` value as a record of its consulted components, and
a caught exception as an explicit `Option`/`Except` state.
-/

namespace SafeHouse

/-! ## String helpers (JS regex/`includes` semantics) -/

/-- Substring containment, as JS `String.prototype.includes` / an unanchored
regex literal: the pattern occurs contiguously somewhere in the text. -/
def containsSub (pat : List Char) : List Char → Bool
  | [] => pat.isEmpty
  | s@(_ :: rest) => pat.isPrefixOf s || containsSub pat rest

/-- JS `s.includes(pat)`. -/
def strContains (s pat : String) : Bool :=
  containsSub pat.data s.data

/-- Characters matched by the regex `.` without the `s` flag in JS:
everything but the four line terminators. -/
def jsDotChar (c : Char) : Bool :=
  !(c == '\n' || c == '\r' || c.val == 0x2028 || c.val == 0x2029)

/-- Characters matched by JS regex `\s`. -/
def jsWsChar (c : Char) : Bool :=
  c == ' ' || c == '\t' || c == '\n' || c == '\x0b' || c == '\x0c' || c == '\r' ||
  c.val == 0xa0 || c.val == 0x1680 ||
  (0x2000 ≤ c.val.toNat && c.val.toNat ≤ 0x200a) ||
  c.val == 0x2028 || c.val == 0x2029 || c.val == 0x202f || c.val == 0x205f ||
  c.val == 0x3000 || c.val == 0xfeff

/-- After a gap of characters satisfying `gap` (regex `X*`), the token `t2`
occurs: matches `X*t2` anchored at the head of the text. -/
def matchGapThen (gap : Char → Bool) (t2 : List Char) : List Char → Bool
  | [] => t2.isEmpty
  | s@(c :: rest) => t2.isPrefixOf s || (gap c && matchGapThen gap t2 rest)

/-- Unanchored match of the regex `t1 X* t2` where `X` is the character class
`gap` (e.g. `.` or `\s`): some position starts with `t1`, followed by a run
of `gap` characters, followed by `t2`. -/
def matchPair (gap : Char → Bool) (t1 t2 : List Char) : List Char → Bool
  | [] => t1.isPrefixOf ([] : List Char) && matchGapThen gap t2 []
  | s@(_ :: rest) =>
      (t1.isPrefixOf s && matchGapThen gap t2 (s.drop t1.length)) ||
      matchPair gap t1 t2 rest

/-- Test that `pred` holds for `n` consecutive characters starting at the head. -/
def startsWithRun (pred : Char → Bool) : Nat → List Char → Bool
  | 0, _ => true
  | _ + 1, [] => false
  | n + 1, c :: rest => pred c && startsWithRun pred n rest

/-- Somewhere in the text, `pred` holds for `n` consecutive characters
(regex `X{n,}` for the class `X`). -/
def hasRun (pred : Char → Bool) (n : Nat) : List Char → Bool
  | [] => n == 0
  | s@(_ :: rest) => startsWithRun pred n s || hasRun pred n rest

/-- JS `host.split('.')` for the single-character separator `'.'`: the
(possibly empty) label lists between dots. -/
def splitOnDot : List Char → List (List Char)
  | [] => [[]]
  | c :: rest =>
      match splitOnDot rest, c == '.' with
      | r, true => [] :: r
      | [], false => [[c]]
      | p :: ps, false => (c :: p) :: ps

/-- ASCII-only lower-casing of a string's characters, the case folding JS
applies for an `i`-flagged non-Unicode regex over an ASCII pattern. -/
def lowerChars (s : String) : List Char :=
  s.data.map Char.toLower

/-! ## Data model -/

/-- The components of a JS `new URL(url)` value that the analyzer consults:
`protocol` (with trailing colon, e.g. `"https:"`), `hostname`, and `port`
(`""` when no explicit non-default port is present, as in JS). -/
structure ParsedUrl where
  protocol : String
  hostname : String
  port : String
  deriving DecidableEq

/-- Output of one heuristic analyzer: a capped score and its issue strings. -/
structure SignalResult where
  score : Nat
  issues : List String
  deriving DecidableEq

/-- A URL-string input as the analyzer sees it after `new URL(...)`:
`none` models a string the URL parser throws on. -/
def UrlInput := Option ParsedUrl

/-- Source `isValidUrl` (analyzer module): parse, then require an http/https scheme;
a parse failure is caught and yields `false`. -/
def isValidUrl : Option ParsedUrl → Bool
  | none => false
  | some parsed => parsed.protocol ∈ ["http:", "https:"]

/-! ## Domain Analyzer (`analyzeDomain`) -/

/-- Regex `^\d+\.\d+\.\d+\.\d+$`: the host is a bare dotted-quad of digit
groups (exactly four nonempty all-digit labels). -/
def isIPv4Host (host : String) : Bool :=
  let parts := splitOnDot host.data
  parts.length == 4 && parts.all (fun p => !p.isEmpty && p.all Char.isDigit)

/-- Source `SUSPICIOUS_DOMAIN_PATTERNS`: `\d{4,}` (≥4 consecutive digits),
`-{2,}` (≥2 consecutive hyphens), `\.(tk|ml|ga|cf|gq)$` case-insensitive
(free TLD), `[а-яА-Я]` (any Cyrillic character, U+0410–U+044F). -/
def SUSPICIOUS_DOMAIN_PATTERNS : List (String → Bool) :=
  [ fun h => hasRun Char.isDigit 4 h.data,
    fun h => hasRun (fun c => c == '-') 2 h.data,
    fun h => [".tk", ".ml", ".ga", ".cf", ".gq"].any
      (fun t => t.data.isSuffixOf (lowerChars h)),
    fun h => h.data.any (fun c => 0x410 ≤ c.val.toNat && c.val.toNat ≤ 0x44f) ]

/-- The `for … break` loop over `SUSPICIOUS_DOMAIN_PATTERNS`: every iteration
pushes the same issue and the same `+15` and breaks, so the loop's effect is
governed by whether any pattern matches. -/
def anyPattern (pats : List (String → Bool)) (t : String) : Bool :=
  pats.any (fun p => p t)

/-- Source `analyzeDomain` (analyzer module, lines 78–120): five additively scored
rules over the parsed URL, final score capped with `Math.min(score, 40)`. -/
def analyzeDomain (parsed : ParsedUrl) : SignalResult :=
  let domain := parsed.hostname
  let r1 : Nat × List String :=
    if isIPv4Host domain then (25, ["IP 주소로 직접 접근"]) else (0, [])
  let r2 : Nat × List String :=
    if anyPattern SUSPICIOUS_DOMAIN_PATTERNS domain then (15, ["의심스러운 도메인 패턴"])
    else (0, [])
  let subdomains := (splitOnDot domain.data).length - 2
  let r3 : Nat × List String :=
    if subdomains > 3 then (10, ["과다 서브도메인 (" ++ toString subdomains ++ "개)"])
    else (0, [])
  let r4 : Nat × List String :=
    if parsed.protocol ≠ "https:" then (15, ["HTTPS 미사용"]) else (0, [])
  let r5 : Nat × List String :=
    if parsed.port ≠ "" ∧ parsed.port ∉ (["80", "443", ""] : List String) then
      (10, ["비표준 포트 (" ++ parsed.port ++ ")"])
    else (0, [])
  { score := min (r1.1 + r2.1 + r3.1 + r4.1 + r5.1) 40,
    issues := r1.2 ++ r2.2 ++ r3.2 ++ r4.2 ++ r5.2 }

/-! ## Risk-level thresholding (`determineRiskLevel`) -/

/-- Constant `RISK_THRESHOLDS.SAFE`. -/
def RISK_THRESHOLDS_SAFE : Nat := 30
/-- Constant `RISK_THRESHOLDS.WARNING`. -/
def RISK_THRESHOLDS_WARNING : Nat := 70

/-- Source `determineRiskLevel` (analyzer module, lines 246–250): the single
thresholding function shared by every scoring path. -/
def determineRiskLevel (score : Nat) : String :=
  if score ≤ RISK_THRESHOLDS_SAFE then "safe"
  else if score ≤ RISK_THRESHOLDS_WARNING then "warning"
  else "danger"

/-! ## Content Analyzer (`analyzeContent`) -/

/-- The page observation the rendering collaborator hands to the Content
Analyzer: visible page text, the form summary computed in the page, and the
concatenated script text. -/
structure PageObservation where
  pageText : String
  formCount : Nat
  hasPasswordField : Bool
  hiddenFieldCount : Nat
  hasExternalAction : Bool
  scripts : String

/-- Source `PHISHING_PATTERNS`: each a case-insensitive regex `t1.*t2`, a loose
two-token co-occurrence. -/
def PHISHING_PATTERNS : List (String × String) :=
  [ ("login", "verify"), ("account", "suspend"), ("urgent", "action"),
    ("password", "expire"), ("verify", "identity"), ("security", "alert"),
    ("confirm", "bank"), ("update", "payment") ]

/-- One case-insensitive `t1.*t2` regex applied to the page text (the `i` flag
folds ASCII case on both sides; `.` excludes line terminators). -/
def phishingPatternTest (p : String × String) (text : String) : Bool :=
  matchPair jsDotChar p.1.data p.2.data (lowerChars text)

/-- Source `MALICIOUS_SCRIPT_PATTERNS`: `eval\s*\(`, `document\.write`,
`window\.location\s*=`, `innerHTML\s*=`, `fromCharCode`, `unescape\s*\(`,
`btoa|atob` — all case-sensitive. -/
def MALICIOUS_SCRIPT_PATTERNS : List (String → Bool) :=
  [ fun s => matchPair jsWsChar "eval".data "(".data s.data,
    fun s => containsSub "document.write".data s.data,
    fun s => matchPair jsWsChar "window.location".data "=".data s.data,
    fun s => matchPair jsWsChar "innerHTML".data "=".data s.data,
    fun s => containsSub "fromCharCode".data s.data,
    fun s => matchPair jsWsChar "unescape".data "(".data s.data,
    fun s => containsSub "btoa".data s.data || containsSub "atob".data s.data ]

/-- Source `analyzeContent` (analyzer module, lines 127–194), over an
already-collected page observation (the in-page extraction steps are the
rendering collaborator's; the `catch` branch is unreachable on pure data).
Final score capped with `Math.min(score, 50)`. -/
def analyzeContent (obs : PageObservation) : SignalResult :=
  let r1 : Nat × List String :=
    if PHISHING_PATTERNS.any (fun p => phishingPatternTest p obs.pageText) then
      (20, ["피싱 의심 문구 발견"])
    else (0, [])
  let r2 : Nat × List String :=
    if obs.hasPasswordField then (10, ["비밀번호 입력 필드 존재"]) else (0, [])
  let r3 : Nat × List String :=
    if obs.hasExternalAction then (25, ["외부 서버로 폼 전송"]) else (0, [])
  let r4 : Nat × List String :=
    if obs.hiddenFieldCount > 5 then
      (10, ["다수의 숨겨진 필드 (" ++ toString obs.hiddenFieldCount ++ "개)"])
    else (0, [])
  let r5 : Nat × List String :=
    if MALICIOUS_SCRIPT_PATTERNS.any (fun p => p obs.scripts) then
      (15, ["의심스러운 스크립트 패턴"])
    else (0, [])
  { score := min (r1.1 + r2.1 + r3.1 + r4.1 + r5.1) 50,
    issues := r1.2 ++ r2.2 ++ r3.2 ++ r4.2 ++ r5.2 }

/-! ## Network Analyzer (`analyzeNetworkRequests`) -/

/-- One collected network request: the request's URL as the analyzer sees it
after `new URL(req.url)` (`none` models the parser throwing, which the
analyzer catches and ignores), its resource type, and the originating page
domain recorded at collection time. -/
structure NetworkRequest where
  url : Option ParsedUrl
  resourceType : String
  originalDomain : String

/-- Loop body of `analyzeNetworkRequests`: a parsable URL adds its hostname
to the insertion-ordered distinct-hostname set and, for a cross-origin
script, to the suspicious list; an unparsable URL leaves both untouched. -/
def netStep (acc : List String × List String) (req : NetworkRequest) :
    List String × List String :=
  match req.url with
  | none => acc
  | some u =>
      let domains := if u.hostname ∈ acc.1 then acc.1 else acc.1 ++ [u.hostname]
      let susp :=
        if req.resourceType == "script" && u.hostname != req.originalDomain then
          acc.2 ++ [u.hostname]
        else acc.2
      (domains, susp)

/-- Network Analyzer output: capped score, issues, and the reporting fields. -/
structure NetworkResult where
  score : Nat
  issues : List String
  externalDomains : List String
  requestCount : Nat

/-- Source `analyzeNetworkRequests` (analyzer module, lines 201–239). -/
def analyzeNetworkRequests (requests : List NetworkRequest) : NetworkResult :=
  let acc := requests.foldl netStep ([], [])
  let externalDomains := acc.1
  let suspiciousRequests := acc.2
  let r1 : Nat × List String :=
    if externalDomains.length > 10 then
      (10, ["다수의 외부 도메인 요청 (" ++ toString externalDomains.length ++ "개)"])
    else (0, [])
  let r2 : Nat × List String :=
    if suspiciousRequests.length > 0 then
      (10, ["외부 스크립트 로드 (" ++ toString suspiciousRequests.length ++ "개)"])
    else (0, [])
  { score := min (r1.1 + r2.1) 20,
    issues := r1.2 ++ r2.2,
    externalDomains := externalDomains,
    requestCount := requests.length }

/-! ## Navigation outcome and the heuristic aggregate (`analyzeUrl` core) -/

/-- Navigation-error scoring inside `analyzeUrl` (lines 336–346): an error
message containing `"timeout"` scores 10, else one containing `"net::ERR_"`
scores 5, else 0; no error scores 0. -/
def navigationOutcome (navigationError : Option String) : Nat × List String :=
  match navigationError with
  | none => (0, [])
  | some e =>
      if strContains e "timeout" then (10, ["페이지 로드 타임아웃"])
      else if strContains e "net::ERR_" then (5, ["네트워크 오류"])
      else (0, [])

/-- The heuristic analysis result (`heuristicResult` built in `analyzeUrl`,
lines 349–402), restricted to the fields the scoring engine computes. -/
structure HeuristicResult where
  riskScore : Nat
  riskLevel : String
  domainDetail : SignalResult
  contentDetail : SignalResult
  networkDetail : NetworkResult
  navigationScore : Nat
  navigationIssues : List String

/-- The pure scoring core of `analyzeUrl` (lines 331–402): run the four
analyzers over the collected inputs, aggregate with
`Math.min(sum, 100)`, threshold with `determineRiskLevel`. -/
def analyzeUrlHeuristic (parsed : ParsedUrl) (obs : PageObservation)
    (requests : List NetworkRequest) (navigationError : Option String) :
    HeuristicResult :=
  let domainAnalysis := analyzeDomain parsed
  let contentAnalysis := analyzeContent obs
  let networkAnalysis := analyzeNetworkRequests requests
  let nav := navigationOutcome navigationError
  let totalScore :=
    min (domainAnalysis.score + contentAnalysis.score + networkAnalysis.score + nav.1) 100
  { riskScore := totalScore,
    riskLevel := determineRiskLevel totalScore,
    domainDetail := domainAnalysis,
    contentDetail := contentAnalysis,
    networkDetail := networkAnalysis,
    navigationScore := nav.1,
    navigationIssues := nav.2 }

/-! ## Quick-Check path (`quickCheck`) -/

/-- Result shape of `quickCheck`. -/
structure QuickCheckResult where
  valid : Bool
  riskScore : Nat
  riskLevel : String
  issues : List String
  message : String

/-- The result `quickCheck` returns for an input failing `isValidUrl`. -/
def invalidQuickResult : QuickCheckResult :=
  { valid := false, riskScore := 0, riskLevel := "unknown",
    issues := [], message := "유효하지 않은 URL 형식" }

/-- Source `quickCheck` (analyzer module, lines 453–477): URL validation, then the
Domain Analyzer and the shared thresholding function only. -/
def quickCheck (url : Option ParsedUrl) : QuickCheckResult :=
  match url with
  | none => invalidQuickResult
  | some parsed =>
      if isValidUrl (some parsed) then
        let domainAnalysis := analyzeDomain parsed
        let riskScore := domainAnalysis.score
        { valid := true,
          riskScore := riskScore,
          riskLevel := determineRiskLevel riskScore,
          issues := domainAnalysis.issues,
          message :=
            if domainAnalysis.issues.length > 0 then "도메인 분석에서 위험 요소 발견"
            else "도메인 분석 통과" }
      else invalidQuickResult

/-! ## Batch check (`POST /api/batch-check`, `src/server.js` 309–348) -/

/-- Batch summary tallies. -/
structure BatchSummary where
  safe : Nat
  warning : Nat
  danger : Nat
  invalid : Nat

/-- Successful batch response body. -/
structure BatchResponse where
  total : Nat
  results : List QuickCheckResult
  summary : BatchSummary

/-- The batch-check handler core: reject more than 10 URLs, otherwise map
`quickCheck` over the inputs in order and tally the summary with the four
`filter` counts of the source. -/
def batchCheck (urls : List (Option ParsedUrl)) : Except String BatchResponse :=
  if urls.length > 10 then .error "TOO_MANY_URLS"
  else
    let results := urls.map quickCheck
    .ok
      { total := urls.length,
        results := results,
        summary :=
          { safe := (results.filter (fun r => r.riskLevel == "safe")).length,
            warning := (results.filter (fun r => r.riskLevel == "warning")).length,
            danger := (results.filter (fun r => r.riskLevel == "danger")).length,
            invalid := (results.filter (fun r => !r.valid)).length } }

/-! ## AI verdict, response parsing and fusion (`src/ai-analyzer.js`) -/

/-- One AI finding. -/
structure AiFinding where
  category : String
  severity : String
  description : String
  deriving DecidableEq

/-- The structured AI verdict (`aiResult.analysis`). -/
structure AiVerdict where
  riskScore : Nat
  riskLevel : String
  summary : String
  findings : List AiFinding
  recommendations : List String
  confidence : Nat
  rawResponse : Option String
  deriving DecidableEq

/-- What `analyzeWithAI` returns: the participation flag and, when enabled,
the parsed verdict, plus the bookkeeping fields a non-participating result
carries (`reason` for a missing API key, `error` for a transport failure). -/
structure AiResult where
  enabled : Bool
  model : Option String
  analysis : Option AiVerdict
  reason : Option String
  error : Option String
  deriving DecidableEq

/-- JS `Math.round` on a non-negative value: round half away from zero,
i.e. `⌊q + 1/2⌋`. -/
def jsRound (q : ℚ) : ℤ := Int.floor (q + 1 / 2)

/-- Insertion order of the keys of the `riskLevels` object literal
`{ safe: 0, warning: 1, danger: 2 }`. -/
def riskLevelsKeys : List String := ["safe", "warning", "danger"]

/-- The lookup `riskLevels[level] || 0`: the object maps the three known
levels to 0/1/2, and `undefined || 0` (any other string) — and also the
falsy `0` itself — collapses to `0`. -/
def levelSeverity (level : String) : Nat :=
  if level = "safe" then 0
  else if level = "warning" then 1
  else if level = "danger" then 2
  else 0

/-- JS `Object.keys(riskLevels).find(key => riskLevels[key] === finalLevel)`,
with JS `find`'s `undefined` on a miss made explicit. -/
def findLevelKey (finalLevel : Nat) : Option String :=
  riskLevelsKeys.find? (fun key => levelSeverity key == finalLevel)

/-- Source `parseAIResponse` (`src/ai-analyzer.js`, lines 170–194).  The JSON-block
extraction and `JSON.parse` are host-language machinery whose outcome is
passed in as `parsed` (`none` models the `catch` on any malformed structured
output); the fallback branch is embedded verbatim.  JS
`content.substring(0, 200)` is modelled as a 200-character prefix. -/
def parseAIResponse (content : String) (parsed : Option AiVerdict) : AiVerdict :=
  match parsed with
  | some v => v
  | none =>
      { riskScore := 50,
        riskLevel := "warning",
        summary := content.take 200,
        findings := [{ category := "suspicious", severity := "medium",
                       description := "AI 분석 결과를 파싱할 수 없습니다." }],
        recommendations := ["수동으로 확인이 필요합니다."],
        confidence := 30,
        rawResponse := some content }

/-- The `aiAnalysis` field of a final result: either the raw
non-participating `aiResult` spread in unchanged, or the fused projection
built in the participating branch of `mergeAnalysisResults`. -/
inductive AiReport where
  | raw (r : AiResult)
  | fused (model : Option String) (score : Nat) (level : String) (summary : String)
      (findings : List AiFinding) (recommendations : List String) (confidence : Nat)
  deriving DecidableEq

/-- The final analysis result, restricted to the fields the fusion engine
computes.  `riskScore` is an integer (`Math.round` output); `aiAnalysis` is
`none` when the pipeline returned the heuristic result without ever calling
the merge function. -/
structure FinalResult where
  riskScore : ℤ
  riskLevel : String
  aiAnalysis : Option AiReport

/-- A heuristic result returned as-is (no `aiAnalysis` property). -/
def heuristicAsFinal (h : HeuristicResult) : FinalResult :=
  { riskScore := (h.riskScore : ℤ), riskLevel := h.riskLevel, aiAnalysis := none }

/-- Source `mergeAnalysisResults` (`src/ai-analyzer.js`, lines 202–241). -/
def mergeAnalysisResults (heuristicResult : HeuristicResult) (aiResult : AiResult) :
    FinalResult :=
  match aiResult.enabled, aiResult.analysis with
  | true, some ai =>
      let combinedScore :=
        jsRound ((heuristicResult.riskScore : ℚ) * 0.4 + (ai.riskScore : ℚ) * 0.6)
      let heuristicLevel := levelSeverity heuristicResult.riskLevel
      let aiLevel := levelSeverity ai.riskLevel
      let finalLevel := max heuristicLevel aiLevel
      let combinedRiskLevel := (findLevelKey finalLevel).getD "undefined"
      { riskScore := combinedScore,
        riskLevel := combinedRiskLevel,
        aiAnalysis := some (.fused aiResult.model ai.riskScore ai.riskLevel ai.summary
          ai.findings ai.recommendations ai.confidence) }
  | _, _ =>
      { riskScore := (heuristicResult.riskScore : ℤ),
        riskLevel := heuristicResult.riskLevel,
        aiAnalysis := some (.raw aiResult) }

/-- The AI step of `analyzeUrl` (analyzer module, lines 404–439): when
`options.useAI !== false`, call the AI collaborator (`.error` models the
`catch` around the call) and merge only when the result is `enabled`; every
other path returns the heuristic result itself. -/
def analyzeUrlFinalize (heuristicResult : HeuristicResult) (useAI : Bool)
    (aiCall : Except String AiResult) : FinalResult :=
  if useAI then
    match aiCall with
    | .ok aiResult =>
        if aiResult.enabled then mergeAnalysisResults heuristicResult aiResult
        else heuristicAsFinal heuristicResult
    | .error _ => heuristicAsFinal heuristicResult
  else heuristicAsFinal heuristicResult

/-- AI participation, as `analyzeUrl` decides it: AI was requested, the call
returned normally, and the result came back `enabled`. -/
def aiParticipated (useAI : Bool) (aiCall : Except String AiResult) : Prop :=
  useAI = true ∧ ∃ aiResult, aiCall = .ok aiResult ∧ aiResult.enabled = true

/-! ## Specification-side definitions and concrete instances -/

/-- Rank of a risk level in the spec's total order `safe < warning < danger`
(defined on the three levels; callers supply only those). -/
def severityRank (level : String) : Nat :=
  if level = "safe" then 0 else if level = "warning" then 1 else 2

/-- Modelled from the spec: the more severe of two risk levels under the
total order `safe < warning < danger`. -/
def moreSevereLevel (a b : String) : String :=
  if severityRank b ≤ severityRank a then a else b

/-- The spec's example host: `https://192.0.2.10/login` as parsed. -/
def ipLiteralExample : ParsedUrl :=
  { protocol := "https:", hostname := "192.0.2.10", port := "" }

/-- A plain valid URL, `https://example.com`, as parsed. -/
def plainUrlExample : ParsedUrl :=
  { protocol := "https:", hostname := "example.com", port := "" }

/-- A heuristic result with score 20 / level safe (the spec's fusion
example). -/
def heuristic20Example : HeuristicResult :=
  { riskScore := 20, riskLevel := "safe",
    domainDetail := { score := 20, issues := [] },
    contentDetail := { score := 0, issues := [] },
    networkDetail := { score := 0, issues := [], externalDomains := [], requestCount := 0 },
    navigationScore := 0, navigationIssues := [] }

/-- A heuristic result with score 50 / level warning. -/
def heuristicWarningExample : HeuristicResult :=
  { riskScore := 50, riskLevel := "warning",
    domainDetail := { score := 30, issues := [] },
    contentDetail := { score := 20, issues := [] },
    networkDetail := { score := 0, issues := [], externalDomains := [], requestCount := 0 },
    navigationScore := 0, navigationIssues := [] }

/-- An AI verdict with score 90 / level danger (the spec's fusion example). -/
def aiVerdict90Example : AiVerdict :=
  { riskScore := 90, riskLevel := "danger", summary := "", findings := [],
    recommendations := [], confidence := 80, rawResponse := none }

/-- An AI verdict whose level string is outside the known set. -/
def aiVerdictBogusLevelExample : AiVerdict :=
  { riskScore := 95, riskLevel := "CRITICAL", summary := "", findings := [],
    recommendations := [], confidence := 99, rawResponse := none }

/-- The non-participating result `analyzeWithAI` returns without an API key. -/
def aiDisabledExample : AiResult :=
  { enabled := false, model := none, analysis := none,
    reason := some "API 키 미설정", error := none }

/-- A three-URL batch whose middle entry fails URL parsing. -/
def batchExample : List (Option ParsedUrl) :=
  [some plainUrlExample, none, some ipLiteralExample]

/-! ## Helper lemmas -/

/-- JS `Math.round(h * 0.4 + ai * 0.6)` over integer scores, in closed form
as a natural-number division. -/
theorem jsRound_weighted_closed (h ai : Nat) :
    jsRound ((h : ℚ) * 0.4 + (ai : ℚ) * 0.6) = ((4 * h + 6 * ai + 5) / 10 : ℕ) := by
  unfold jsRound
  have key : (h : ℚ) * 0.4 + (ai : ℚ) * 0.6 + 1 / 2 =
      ((4 * h + 6 * ai + 5 : ℕ) : ℚ) / ((10 : ℕ) : ℚ) := by
    push_cast
    ring
  rw [key, Rat.floor_natCast_div_natCast]
  push_cast
  rfl

theorem levelSeverity_le_two (s : String) : levelSeverity s ≤ 2 := by
  unfold levelSeverity
  split_ifs <;> norm_num

theorem levelSeverity_of_notMem (s : String) (hs : s ∉ riskLevelsKeys) :
    levelSeverity s = 0 := by
  unfold levelSeverity
  split_ifs with h1 h2 h3
  · rfl
  · exact absurd (by simp [riskLevelsKeys, h2]) hs
  · exact absurd (by simp [riskLevelsKeys, h3]) hs
  · rfl

theorem findLevelKey_getD_mem (n : Nat) (hn : n ≤ 2) :
    (findLevelKey n).getD "undefined" ∈ riskLevelsKeys := by
  interval_cases n <;> decide

theorem findLevelKey_moreSevere (a b : String)
    (ha : a ∈ riskLevelsKeys) (hb : b ∈ riskLevelsKeys) :
    (findLevelKey (max (levelSeverity a) (levelSeverity b))).getD "undefined" =
      moreSevereLevel a b := by
  fin_cases ha <;> fin_cases hb <;> decide

/-- Projections of the participating branch of `mergeAnalysisResults`. -/
theorem mergeAnalysisResults_enabled_proj (h : HeuristicResult) (ai : AiVerdict)
    (mo reason err : Option String) :
    (mergeAnalysisResults h ⟨true, mo, some ai, reason, err⟩).riskScore =
      jsRound ((h.riskScore : ℚ) * 0.4 + (ai.riskScore : ℚ) * 0.6) ∧
    (mergeAnalysisResults h ⟨true, mo, some ai, reason, err⟩).riskLevel =
      (findLevelKey (max (levelSeverity h.riskLevel) (levelSeverity ai.riskLevel))).getD
        "undefined" :=
  ⟨rfl, rfl⟩

/-- The participating branch always emits a level from the closed key set. -/
theorem mergeAnalysisResults_enabled_level_mem (h : HeuristicResult) (ai : AiVerdict)
    (mo reason err : Option String) :
    (mergeAnalysisResults h ⟨true, mo, some ai, reason, err⟩).riskLevel ∈
      riskLevelsKeys := by
  rw [(mergeAnalysisResults_enabled_proj h ai mo reason err).2]
  exact findLevelKey_getD_mem _
    (max_le (levelSeverity_le_two _) (levelSeverity_le_two _))

theorem quickCheck_valid_eq (url : Option ParsedUrl) :
    (quickCheck url).valid = isValidUrl url := by
  cases url with
  | none => rfl
  | some parsed =>
      dsimp only [quickCheck]
      by_cases hv : isValidUrl (some parsed) = true
      · rw [if_pos hv]
        exact hv.symm
      · rw [if_neg hv]
        simp [invalidQuickResult, Bool.eq_false_iff.mpr hv]

theorem determineRiskLevel_mem (score : Nat) :
    determineRiskLevel score ∈ riskLevelsKeys := by
  unfold determineRiskLevel
  split_ifs <;> simp [riskLevelsKeys]

/-! ## Claim theorems -/

/-- C1: for every heuristic result and every participating AI verdict (both
levels drawn from the level enum), the fused result's `riskScore` equals
`round(heuristicScore * 0.4 + aiScore * 0.6)` (equivalently the closed
natural-division form), and its `riskLevel` is the more severe of the two
levels under `safe < warning < danger` — a maximum, not a re-thresholding
of the combined score. -/
theorem mergeAnalysisResults_weighted_and_escalated
    (h : HeuristicResult) (ai : AiVerdict) (mo reason err : Option String)
    (hl : h.riskLevel ∈ riskLevelsKeys) (al : ai.riskLevel ∈ riskLevelsKeys) :
    (mergeAnalysisResults h ⟨true, mo, some ai, reason, err⟩).riskScore =
      jsRound ((h.riskScore : ℚ) * 0.4 + (ai.riskScore : ℚ) * 0.6) ∧
    (mergeAnalysisResults h ⟨true, mo, some ai, reason, err⟩).riskScore =
      (((4 * h.riskScore + 6 * ai.riskScore + 5) / 10 : ℕ) : ℤ) ∧
    (mergeAnalysisResults h ⟨true, mo, some ai, reason, err⟩).riskLevel =
      moreSevereLevel h.riskLevel ai.riskLevel := by
  obtain ⟨hs, hlvl⟩ := mergeAnalysisResults_enabled_proj h ai mo reason err
  refine ⟨hs, ?_, ?_⟩
  · rw [hs, jsRound_weighted_closed]
  · rw [hlvl, findLevelKey_moreSevere _ _ hl al]

/-- Witness for C1: the spec's own instance — heuristic 20/safe fused with
AI 90/danger gives combined score 62 and combined level danger. -/
theorem mergeAnalysisResults_weighted_and_escalated_witness :
    (mergeAnalysisResults heuristic20Example
        ⟨true, none, some aiVerdict90Example, none, none⟩).riskScore = 62 ∧
    (mergeAnalysisResults heuristic20Example
        ⟨true, none, some aiVerdict90Example, none, none⟩).riskLevel = "danger" := by
  obtain ⟨-, h2, h3⟩ := mergeAnalysisResults_weighted_and_escalated
    heuristic20Example aiVerdict90Example none none none (by decide) (by decide)
  refine ⟨?_, ?_⟩
  · rw [h2]; decide
  · rw [h3]; decide

/-- C3: a risk score of at most 30 is `safe`, of 31–70 `warning`, of at
least 71 `danger`; and both the full heuristic path and the quick-check
path derive their level by applying this one thresholding function to their
own score. -/
theorem determineRiskLevel_buckets_shared :
    (∀ score : Nat, score ≤ 30 → determineRiskLevel score = "safe") ∧
    (∀ score : Nat, 31 ≤ score → score ≤ 70 → determineRiskLevel score = "warning") ∧
    (∀ score : Nat, 71 ≤ score → determineRiskLevel score = "danger") ∧
    (∀ (parsed : ParsedUrl) (obs : PageObservation) (requests : List NetworkRequest)
        (navErr : Option String),
      (analyzeUrlHeuristic parsed obs requests navErr).riskLevel =
        determineRiskLevel (analyzeUrlHeuristic parsed obs requests navErr).riskScore) ∧
    (∀ url : Option ParsedUrl, (quickCheck url).valid = true →
      (quickCheck url).riskLevel = determineRiskLevel (quickCheck url).riskScore) := by
  refine ⟨?_, ?_, ?_, ?_, ?_⟩
  · intro score hs
    unfold determineRiskLevel RISK_THRESHOLDS_SAFE
    rw [if_pos hs]
  · intro score h1 h2
    unfold determineRiskLevel RISK_THRESHOLDS_SAFE RISK_THRESHOLDS_WARNING
    rw [if_neg (by omega), if_pos h2]
  · intro score h1
    unfold determineRiskLevel RISK_THRESHOLDS_SAFE RISK_THRESHOLDS_WARNING
    rw [if_neg (by omega), if_neg (by omega)]
  · intro parsed obs requests navErr
    rfl
  · intro url hvalid
    cases url with
    | none => exact absurd hvalid (by decide)
    | some parsed =>
        dsimp only [quickCheck]
        by_cases hv : isValidUrl (some parsed) = true
        · rw [if_pos hv]
        · rw [quickCheck_valid_eq] at hvalid
          exact absurd hvalid hv

/-- Witness for C3: the buckets at 25, 62 and 90, and the quick-check path
thresholding its own score on a concrete valid URL. -/
theorem determineRiskLevel_buckets_shared_witness :
    determineRiskLevel 25 = "safe" ∧ determineRiskLevel 62 = "warning" ∧
    determineRiskLevel 90 = "danger" ∧
    (quickCheck (some plainUrlExample)).riskLevel =
      determineRiskLevel (quickCheck (some plainUrlExample)).riskScore :=
  ⟨determineRiskLevel_buckets_shared.1 25 (by decide),
   determineRiskLevel_buckets_shared.2.1 62 (by decide) (by decide),
   determineRiskLevel_buckets_shared.2.2.1 90 (by decide),
   determineRiskLevel_buckets_shared.2.2.2.2 (some plainUrlExample) (by decide)⟩

/-- C4: the Domain Analyzer's score is the minimum of 40 and the sum of its
triggered rule points — bare IPv4 host +25; any one of the four suspicious
host patterns (≥4 consecutive digits, ≥2 consecutive hyphens, a free TLD in
tk/ml/ga/cf/gq case-insensitively, a Cyrillic character) +15 once with no
stacking; subdomain depth (label count minus 2) above 3 +10; a non-https
scheme +15; an explicit port other than 80/443 +10 — and on
`https://192.0.2.10/login` it scores exactly 25, level safe. -/
theorem analyzeDomain_rules :
    (∀ parsed : ParsedUrl,
      (analyzeDomain parsed).score =
        min ((if isIPv4Host parsed.hostname then 25 else 0) +
             (if hasRun Char.isDigit 4 parsed.hostname.data ||
                 hasRun (fun c => c == '-') 2 parsed.hostname.data ||
                 [".tk", ".ml", ".ga", ".cf", ".gq"].any
                   (fun t => t.data.isSuffixOf (lowerChars parsed.hostname)) ||
                 parsed.hostname.data.any
                   (fun c => 0x410 ≤ c.val.toNat && c.val.toNat ≤ 0x44f)
              then 15 else 0) +
             (if (splitOnDot parsed.hostname.data).length - 2 > 3 then 10 else 0) +
             (if parsed.protocol ≠ "https:" then 15 else 0) +
             (if parsed.port ≠ "" ∧ parsed.port ∉ (["80", "443", ""] : List String)
              then 10 else 0)) 40) ∧
    (analyzeDomain ipLiteralExample).score = 25 ∧
    determineRiskLevel (analyzeDomain ipLiteralExample).score = "safe" := by
  refine ⟨?_, by decide, by decide⟩
  intro parsed
  have hpat : anyPattern SUSPICIOUS_DOMAIN_PATTERNS parsed.hostname =
      (hasRun Char.isDigit 4 parsed.hostname.data ||
       hasRun (fun c => c == '-') 2 parsed.hostname.data ||
       [".tk", ".ml", ".ga", ".cf", ".gq"].any
         (fun t => t.data.isSuffixOf (lowerChars parsed.hostname)) ||
       parsed.hostname.data.any
         (fun c => 0x410 ≤ c.val.toNat && c.val.toNat ≤ 0x44f)) := by
    simp [anyPattern, SUSPICIOUS_DOMAIN_PATTERNS, Bool.or_assoc]
  dsimp only [analyzeDomain]
  rw [hpat]
  split_ifs <;> rfl

/-- C5: each analyzer's score respects its own cap (Domain 40, Content 50,
Network 20, Navigation 10), and the aggregate heuristic `riskScore` is
`min(sum of the four, 100)`, hence in `[0, 100]`. -/
theorem analyzer_caps_and_aggregate :
    ∀ (parsed : ParsedUrl) (obs : PageObservation) (requests : List NetworkRequest)
      (navErr : Option String),
      (analyzeDomain parsed).score ≤ 40 ∧
      (analyzeContent obs).score ≤ 50 ∧
      (analyzeNetworkRequests requests).score ≤ 20 ∧
      (navigationOutcome navErr).1 ≤ 10 ∧
      (analyzeUrlHeuristic parsed obs requests navErr).riskScore =
        min ((analyzeDomain parsed).score + (analyzeContent obs).score +
             (analyzeNetworkRequests requests).score + (navigationOutcome navErr).1)
          100 ∧
      (analyzeUrlHeuristic parsed obs requests navErr).riskScore ≤ 100 := by
  intro parsed obs requests navErr
  refine ⟨min_le_right _ _, min_le_right _ _, min_le_right _ _, ?_, rfl, min_le_right _ _⟩
  cases navErr with
  | none => exact Nat.zero_le _
  | some e =>
      dsimp only [navigationOutcome]
      split_ifs <;> norm_num

/-- C6: for every valid URL, the quick-check path's score and level are
identical to what the full path's Domain Analyzer followed by the shared
thresholding function produces — and the full path's domain component is
that same Domain Analyzer. -/
theorem quickCheck_no_drift (parsed : ParsedUrl)
    (hv : isValidUrl (some parsed) = true) :
    (quickCheck (some parsed)).riskScore = (analyzeDomain parsed).score ∧
    (quickCheck (some parsed)).riskLevel =
      determineRiskLevel (analyzeDomain parsed).score ∧
    ∀ (obs : PageObservation) (requests : List NetworkRequest)
      (navErr : Option String),
      (analyzeUrlHeuristic parsed obs requests navErr).domainDetail =
        analyzeDomain parsed := by
  refine ⟨?_, ?_, fun obs requests navErr => rfl⟩ <;>
    · dsimp only [quickCheck]
      rw [if_pos hv]

/-- Witness for C6: the quick path and the domain-plus-thresholding pipeline
agree on `https://example.com`. -/
theorem quickCheck_no_drift_witness :
    (quickCheck (some plainUrlExample)).riskScore =
      (analyzeDomain plainUrlExample).score ∧
    (quickCheck (some plainUrlExample)).riskLevel =
      determineRiskLevel (analyzeDomain plainUrlExample).score :=
  ⟨(quickCheck_no_drift plainUrlExample (by decide)).1,
   (quickCheck_no_drift plainUrlExample (by decide)).2.1⟩

/-- C2 (counterexample): with AI analysis requested but the collaborator
disabled (no API key), the pipeline returns the heuristic result with its
score and level intact but with NO `aiAnalysis` field — the claimed
reason-recording field is absent. -/
theorem analyzeUrlFinalize_no_reason_field :
    (analyzeUrlFinalize heuristic20Example true (.ok aiDisabledExample)).riskScore = 20 ∧
    (analyzeUrlFinalize heuristic20Example true (.ok aiDisabledExample)).riskLevel =
      "safe" ∧
    (analyzeUrlFinalize heuristic20Example true (.ok aiDisabledExample)).aiAnalysis =
      none := by
  refine ⟨rfl, rfl, rfl⟩

/-- C2 (amended): for every analysis in which the AI did not participate
(disabled, unreachable, or its result discarded), the final result equals
the heuristic result verbatim on `riskScore` and `riskLevel`, and carries
no `aiAnalysis` field — the pipeline returns the heuristic result itself
without recording the non-participation reason. -/
theorem analyzeUrlFinalize_nonparticipation_verbatim
    (h : HeuristicResult) (useAI : Bool) (aiCall : Except String AiResult)
    (hnp : ¬ aiParticipated useAI aiCall) :
    (analyzeUrlFinalize h useAI aiCall).riskScore = (h.riskScore : ℤ) ∧
    (analyzeUrlFinalize h useAI aiCall).riskLevel = h.riskLevel ∧
    (analyzeUrlFinalize h useAI aiCall).aiAnalysis = none := by
  cases useAI with
  | false => exact ⟨rfl, rfl, rfl⟩
  | true =>
      cases aiCall with
      | error e => exact ⟨rfl, rfl, rfl⟩
      | ok aiResult =>
          dsimp only [analyzeUrlFinalize]
          rw [if_pos rfl]
          by_cases hen : aiResult.enabled = true
          · exact absurd ⟨rfl, aiResult, rfl, hen⟩ hnp
          · rw [if_neg hen]
            exact ⟨rfl, rfl, rfl⟩

/-- Witness for the amended C2: the disabled-AI call on the concrete
heuristic result keeps score 20 and level safe, with no AI annotation. -/
theorem analyzeUrlFinalize_nonparticipation_verbatim_witness :
    (analyzeUrlFinalize heuristicWarningExample true (.ok aiDisabledExample)).riskScore =
      (heuristicWarningExample.riskScore : ℤ) ∧
    (analyzeUrlFinalize heuristicWarningExample true (.ok aiDisabledExample)).riskLevel =
      heuristicWarningExample.riskLevel ∧
    (analyzeUrlFinalize heuristicWarningExample true (.ok aiDisabledExample)).aiAnalysis =
      none :=
  analyzeUrlFinalize_nonparticipation_verbatim heuristicWarningExample true
    (.ok aiDisabledExample)
    (fun hp => by
      obtain ⟨-, aiResult, hEq, hEn⟩ := hp
      cases hEq
      exact absurd hEn (by decide))

/-- C8: for every AI response text whose structured output cannot be parsed,
the parser returns the synthetic fallback verdict — riskScore 50, riskLevel
warning, confidence 30, exactly one finding of category `suspicious` and
severity `medium` — and fusing it still yields a final result whose level
is drawn from the closed level set. -/
theorem parseAIResponse_fallback_verdict (content : String) :
    (parseAIResponse content none).riskScore = 50 ∧
    (parseAIResponse content none).riskLevel = "warning" ∧
    (parseAIResponse content none).confidence = 30 ∧
    (parseAIResponse content none).findings =
      [{ category := "suspicious", severity := "medium",
         description := "AI 분석 결과를 파싱할 수 없습니다." }] ∧
    ∀ (h : HeuristicResult) (mo : Option String),
      (analyzeUrlFinalize h true
          (.ok ⟨true, mo, some (parseAIResponse content none), none, none⟩)).riskLevel ∈
        riskLevelsKeys := by
  refine ⟨rfl, rfl, rfl, rfl, ?_⟩
  intro h mo
  exact mergeAnalysisResults_enabled_level_mem h (parseAIResponse content none) mo
    none none

/-- C9: the severity mapping sends every level string outside
{safe, warning, danger} to severity 0 (treated as safe), the participating
fusion branch always emits a level from that closed set for arbitrary input
level strings, and a malformed AI level never escalates: with a valid
heuristic level it leaves the heuristic level unchanged. -/
theorem levelSeverity_total_no_escalation :
    (∀ s : String, s ∉ riskLevelsKeys → levelSeverity s = 0) ∧
    (∀ (h : HeuristicResult) (ai : AiVerdict) (mo reason err : Option String),
      (mergeAnalysisResults h ⟨true, mo, some ai, reason, err⟩).riskLevel ∈
        riskLevelsKeys) ∧
    (∀ (h : HeuristicResult) (ai : AiVerdict) (mo reason err : Option String),
      h.riskLevel ∈ riskLevelsKeys → ai.riskLevel ∉ riskLevelsKeys →
      (mergeAnalysisResults h ⟨true, mo, some ai, reason, err⟩).riskLevel =
        h.riskLevel) := by
  refine ⟨levelSeverity_of_notMem, mergeAnalysisResults_enabled_level_mem, ?_⟩
  intro h ai mo reason err hh ha
  rw [(mergeAnalysisResults_enabled_proj h ai mo reason err).2,
    levelSeverity_of_notMem ai.riskLevel ha]
  have hmax : max (levelSeverity h.riskLevel) 0 = levelSeverity h.riskLevel :=
    Nat.max_eq_left (Nat.zero_le _)
  rw [hmax]
  simp only [riskLevelsKeys, List.mem_cons, List.mem_singleton,
    List.not_mem_nil, or_false] at hh
  rcases hh with h1 | h1 | h1 <;> rw [h1] <;> decide

/-- Witness for C9: the out-of-set string `"CRITICAL"` maps to severity 0,
and an AI verdict carrying it cannot escalate a warning-level heuristic
result. -/
theorem levelSeverity_total_no_escalation_witness :
    levelSeverity "CRITICAL" = 0 ∧
    (mergeAnalysisResults heuristicWarningExample
        ⟨true, none, some aiVerdictBogusLevelExample, none, none⟩).riskLevel =
      heuristicWarningExample.riskLevel :=
  ⟨levelSeverity_total_no_escalation.1 "CRITICAL" (by decide),
   levelSeverity_total_no_escalation.2.2 heuristicWarningExample
     aiVerdictBogusLevelExample none none none (by decide) (by decide)⟩

/-- A valid input's quick-check level comes from the shared thresholding
function, hence lies in the closed level set. -/
theorem quickCheck_level_mem_of_valid (url : Option ParsedUrl)
    (hv : isValidUrl url = true) :
    (quickCheck url).riskLevel ∈ riskLevelsKeys := by
  cases url with
  | none => exact absurd hv (by decide)
  | some parsed =>
      dsimp only [quickCheck]
      rw [if_pos hv]
      exact determineRiskLevel_mem _

/-- An invalid input yields the fixed invalid quick-check record. -/
theorem quickCheck_invalid (url : Option ParsedUrl)
    (hv : isValidUrl url = false) :
    quickCheck url = invalidQuickResult := by
  cases url with
  | none => rfl
  | some parsed =>
      dsimp only [quickCheck]
      rw [if_neg (by simp [hv])]

/-- Every input URL lands in exactly one of the four batch tallies. -/
theorem batchTally (l : List (Option ParsedUrl)) :
    ((l.map quickCheck).filter (fun r => r.riskLevel == "safe")).length +
    ((l.map quickCheck).filter (fun r => r.riskLevel == "warning")).length +
    ((l.map quickCheck).filter (fun r => r.riskLevel == "danger")).length +
    ((l.map quickCheck).filter (fun r => !r.valid)).length = l.length := by
  induction l with
  | nil => rfl
  | cons u rest ih =>
      simp only [List.map_cons, List.filter_cons, List.length_cons]
      by_cases hv : isValidUrl u = true
      · have h3 : (!(quickCheck u).valid) = false := by
          rw [quickCheck_valid_eq, hv]
          rfl
        have hmem := quickCheck_level_mem_of_valid u hv
        simp only [riskLevelsKeys, List.mem_cons, List.mem_singleton,
          List.not_mem_nil, or_false] at hmem
        rcases hmem with h1 | h1 | h1 <;> simp [h1, h3] <;> omega
      · have h0 : isValidUrl u = false := Bool.eq_false_iff.mpr hv
        simp [quickCheck_invalid u h0, invalidQuickResult]
        omega

/-- C7: a batch within the caller-enforced bound is accepted, maps each
input URL to exactly one quick-check result in input order (so `total` and
the result count equal the input count), tallies the summary by risk level
with an `invalid` count equal to the number of URLs failing validation, and
every URL — malformed ones included — contributes to exactly one tally. -/
theorem batchCheck_one_result_per_url (urls : List (Option ParsedUrl))
    (hlen : urls.length ≤ 10) :
    ∃ resp : BatchResponse, batchCheck urls = Except.ok resp ∧
      resp.total = urls.length ∧
      resp.results = urls.map quickCheck ∧
      resp.results.length = urls.length ∧
      resp.summary.safe =
        ((urls.map quickCheck).filter (fun r => r.riskLevel == "safe")).length ∧
      resp.summary.warning =
        ((urls.map quickCheck).filter (fun r => r.riskLevel == "warning")).length ∧
      resp.summary.danger =
        ((urls.map quickCheck).filter (fun r => r.riskLevel == "danger")).length ∧
      resp.summary.invalid = (urls.filter (fun u => !isValidUrl u)).length ∧
      resp.summary.safe + resp.summary.warning + resp.summary.danger +
        resp.summary.invalid = urls.length := by
  have hng : ¬ urls.length > 10 := by omega
  have hb : batchCheck urls = Except.ok
      { total := urls.length,
        results := urls.map quickCheck,
        summary :=
          { safe := ((urls.map quickCheck).filter (fun r => r.riskLevel == "safe")).length,
            warning :=
              ((urls.map quickCheck).filter (fun r => r.riskLevel == "warning")).length,
            danger :=
              ((urls.map quickCheck).filter (fun r => r.riskLevel == "danger")).length,
            invalid := ((urls.map quickCheck).filter (fun r => !r.valid)).length } } := by
    dsimp only [batchCheck]
    rw [if_neg hng]
  refine ⟨_, hb, rfl, rfl, by simp, rfl, rfl, rfl, ?_, batchTally urls⟩
  show ((urls.map quickCheck).filter (fun r => !r.valid)).length =
    (urls.filter (fun u => !isValidUrl u)).length
  rw [List.filter_map]
  rw [List.length_map]
  congr 1
  apply List.filter_congr
  intro u hu
  simp [Function.comp, quickCheck_valid_eq]

/-- Witness for C7: the three-URL batch with one unparsable entry yields
`total = 3` and `invalid = 1`. -/
theorem batchCheck_one_result_per_url_witness :
    ∃ resp : BatchResponse, batchCheck batchExample = Except.ok resp ∧
      resp.total = 3 ∧ resp.summary.invalid = 1 := by
  obtain ⟨resp, h1, h2, -, -, -, -, -, h8, -⟩ :=
    batchCheck_one_result_per_url batchExample (by decide)
  exact ⟨resp, h1, by rw [h2]; rfl, by rw [h8]; decide⟩

/-- A record whose URL failed to parse leaves the fold state untouched. -/
theorem netStep_skip (acc : List String × List String) (r : NetworkRequest)
    (h : r.url = none) : netStep acc r = acc := by
  dsimp only [netStep]
  rw [h]

/-- The network fold ignores records with unparsable URLs. -/
theorem netFold_filter (l : List NetworkRequest) (acc : List String × List String) :
    l.foldl netStep acc = (l.filter (fun r => r.url.isSome)).foldl netStep acc := by
  induction l generalizing acc with
  | nil => rfl
  | cons r rest ih =>
      simp only [List.foldl_cons, List.filter_cons]
      cases hu : r.url with
      | none =>
          rw [netStep_skip acc r hu, if_neg (by simp)]
          exact ih acc
      | some u =>
          rw [if_pos (by simp)]
          exact ih (netStep acc r)

/-- C10: the Network Analyzer silently skips every record whose URL fails to
parse — such records contribute nothing to the distinct-hostname set, the
suspicious-script list, the issues, or the score — while the reported
`requestCount` still counts all records. -/
theorem analyzeNetworkRequests_skips_unparsable (requests : List NetworkRequest) :
    (analyzeNetworkRequests requests).score =
      (analyzeNetworkRequests (requests.filter (fun r => r.url.isSome))).score ∧
    (analyzeNetworkRequests requests).issues =
      (analyzeNetworkRequests (requests.filter (fun r => r.url.isSome))).issues ∧
    (analyzeNetworkRequests requests).externalDomains =
      (analyzeNetworkRequests (requests.filter (fun r => r.url.isSome))).externalDomains ∧
    requests.foldl netStep ([], []) =
      (requests.filter (fun r => r.url.isSome)).foldl netStep ([], []) ∧
    (analyzeNetworkRequests requests).requestCount = requests.length := by
  have hf := netFold_filter requests ([], [])
  refine ⟨?_, ?_, ?_, hf, rfl⟩ <;>
    · dsimp only [analyzeNetworkRequests]
      rw [hf]

end SafeHouse
